import Mathlib

/-!
Verification development for the Trading_Bot repository.

The definitions below are a shallow embedding of the retry/error-classification
core (`src/utils/exceptions.py`) and of the trading facade
(`src/bot/trading_bot.py`).  Python exception classes become an enumeration,
raised exceptions become `Except` results, the decorator `retry_api_call`
becomes an explicit fuel-indexed loop mirroring its `while retries < max_retries`
loop, and Python numbers are modelled as rationals.
-/

namespace TradingBot

/-- The custom exception classes declared in `src/utils/exceptions.py`.
`tradingBotError` is the base class `TradingBotError`. -/
inductive ExcClass where
  | tradingBotError
  | connectionError
  | insufficientBalanceError
  | invalidOrderError
  | orderPlacementError
  | orderCancellationError
  | rateLimitError
  | marketDataError
  | precisionError
  | symbolError
deriving DecidableEq, Repr

/-- A raised trading-bot exception: its class, its `message`, and its
optional `error_code` (the fields set by `TradingBotError.__init__`). -/
structure TBError where
  cls : ExcClass
  message : String
  errorCode : Option Int
deriving DecidableEq, Repr

/-- Models `TradingBotError.__str__`: `[code] message` when an error code is
present, otherwise just the message. -/
def tbStr (e : TBError) : String :=
  match e.errorCode with
  | some c => "[" ++ toString c ++ "] " ++ e.message
  | none => e.message

/-- The table `BINANCE_ERROR_MAP` from `src/utils/exceptions.py`, verbatim:
error code, mapped exception class, default message. -/
def BINANCE_ERROR_MAP : List (Int × ExcClass × String) := [
  (-1000, (.tradingBotError, "Unknown error occurred")),
  (-1001, (.connectionError, "Internal error; unable to process request")),
  (-1002, (.connectionError, "Unauthorized request")),
  (-1003, (.rateLimitError, "Too many requests")),
  (-1006, (.tradingBotError, "Unexpected response received")),
  (-1007, (.connectionError, "Request timeout")),
  (-1008, (.rateLimitError, "Server overloaded")),
  (-1014, (.tradingBotError, "Unsupported order combination")),
  (-1015, (.rateLimitError, "Too many orders")),
  (-1016, (.tradingBotError, "Service shutting down")),
  (-1020, (.tradingBotError, "Unsupported operation")),
  (-1021, (.connectionError, "Timestamp outside recv window")),
  (-1022, (.connectionError, "Invalid signature")),
  (-1100, (.invalidOrderError, "Illegal characters found in parameter")),
  (-1101, (.invalidOrderError, "Too many parameters sent")),
  (-1102, (.invalidOrderError, "Mandatory parameter was not sent")),
  (-1103, (.invalidOrderError, "Unknown parameter was sent")),
  (-1104, (.invalidOrderError, "Not all parameters were read")),
  (-1105, (.invalidOrderError, "Parameter was empty")),
  (-1106, (.invalidOrderError, "Parameter was not required")),
  (-1111, (.precisionError, "Precision is over the maximum defined")),
  (-1112, (.marketDataError, "No orders on book for symbol")),
  (-1114, (.invalidOrderError, "TimeInForce parameter sent when not required")),
  (-1115, (.invalidOrderError, "Invalid timeInForce")),
  (-1116, (.invalidOrderError, "Invalid orderType")),
  (-1117, (.invalidOrderError, "Invalid side")),
  (-1118, (.invalidOrderError, "New client order ID was empty")),
  (-1119, (.invalidOrderError, "Original client order ID was empty")),
  (-1120, (.invalidOrderError, "Invalid interval")),
  (-1121, (.symbolError, "Invalid symbol")),
  (-1125, (.connectionError, "Invalid listen key")),
  (-1127, (.invalidOrderError, "Lookup interval is too big")),
  (-1128, (.invalidOrderError, "Combination of optional parameters invalid")),
  (-1130, (.invalidOrderError, "Invalid data sent for parameter")),
  (-1131, (.invalidOrderError, "recvWindow must be less than 60000")),
  (-2010, (.insufficientBalanceError, "Account has insufficient balance")),
  (-2011, (.orderCancellationError, "Unknown order sent")),
  (-2013, (.orderCancellationError, "Order does not exist")),
  (-2014, (.connectionError, "API-key format invalid")),
  (-2015, (.connectionError, "Invalid API-key, IP, or permissions")),
  (-2016, (.tradingBotError, "No trading window could be found")),
  (-2018, (.insufficientBalanceError, "Balance is insufficient")),
  (-2019, (.insufficientBalanceError, "Margin is insufficient")),
  (-2020, (.tradingBotError, "Unable to fill")),
  (-2021, (.orderCancellationError, "Order would immediately trigger")),
  (-2022, (.invalidOrderError, "ReduceOnly order is rejected"))]

/-- `BINANCE_ERROR_MAP.get(code, (TradingBotError, f"Binance API Error {code}"))`,
the lookup-with-default performed inside `retry_api_call`. -/
def classifyCode (code : Int) : ExcClass × String :=
  (BINANCE_ERROR_MAP.lookup code).getD
    (.tradingBotError, "Binance API Error " ++ toString code)

/-- The spec's error taxonomy (spec section 7). -/
inductive SpecKind where
  | connectionFailure
  | rateLimited
  | invalidRequest
  | insufficientBalance
  | orderRejected
  | orderPlacementFailure
  | unclassified
deriving DecidableEq, Repr

/-- Abstraction from the source's exception classes to the spec's taxonomy.
The source refines the spec's `InvalidRequest` (bad symbol, bad side, bad
precision, missing mandatory field) into `InvalidOrderError`, `PrecisionError`
and `SymbolError`, all of which carry the offending field/value; the spec's
`OrderRejected` (unknown order, would-immediately-trigger) is the source's
`OrderCancellationError`; the base class and `MarketDataError` are the
generic unclassified kind. -/
def toSpecKind : ExcClass → SpecKind
  | .connectionError => .connectionFailure
  | .rateLimitError => .rateLimited
  | .invalidOrderError => .invalidRequest
  | .precisionError => .invalidRequest
  | .symbolError => .invalidRequest
  | .insufficientBalanceError => .insufficientBalance
  | .orderCancellationError => .orderRejected
  | .orderPlacementError => .orderPlacementFailure
  | .tradingBotError => .unclassified
  | .marketDataError => .unclassified

/-- Outcome of one invocation of a wrapped operation, as seen by the
`retry_api_call` wrapper: a returned value, a raised `BinanceAPIException`
(numeric code, message, optional `Retry-After` response header), a raised
`BinanceOrderException` (message only), or any other exception (carrying
the `TradingBotError` instance when it is one, and its `str()`). -/
inductive PyOutcome (α : Type) where
  | success : α → PyOutcome α
  | binanceAPI : Int → String → Option Nat → PyOutcome α
  | binanceOrder : String → PyOutcome α
  | generic : Option TBError → String → PyOutcome α
deriving DecidableEq

/-- What `retry_api_call` records in `last_exception`. -/
inductive LastExc where
  | api : Int → String → LastExc
  | gen : String → LastExc
deriving DecidableEq

/-- Result of one wrapped call: the returned value or the raised error, the
number of invocations of the operation, and the sequence of back-off sleep
durations (arguments of `time.sleep`), in order. -/
structure RetryResult (α : Type) where
  result : Except TBError α
  attempts : Nat
  sleeps : List ℚ

/-- Python `int()` applied to a number: truncation toward zero. -/
def pyTrunc (q : ℚ) : Int :=
  if 0 ≤ q then ⌊q⌋ else ⌈q⌉

/-- The raise after the `while` loop of `retry_api_call` exhausts:
maps a recorded `BinanceAPIException` through `BINANCE_ERROR_MAP`, and any
other exception to `ConnectionError`. -/
def terminalError (maxR : Nat) : Option LastExc → TBError
  | some (.api code msg) =>
      ⟨(classifyCode code).1, "Max retries exceeded: " ++ msg, some code⟩
  | some (.gen s) =>
      ⟨.connectionError, "Max retries (" ++ toString maxR ++ ") exceeded: " ++ s, none⟩
  | none =>
      ⟨.connectionError, "Max retries (" ++ toString maxR ++ ") exceeded", none⟩

/-- The body of `retry_api_call`'s `while retries < max_retries` loop, as a
fuel-indexed recursion.  `fuel` is `maxR - retries` (the number of loop
iterations still allowed), `cur` is `current_delay`, `last` is
`last_exception`, `sleeps` accumulates the `time.sleep` arguments.  The
operation `op` is indexed by the attempt number so that stateful collaborators
(a client failing on some calls) can be expressed. -/
def runLoop (op : Nat → PyOutcome α) (maxR : Nat) (backoff : ℚ) :
    Nat → Nat → ℚ → Option LastExc → List ℚ → RetryResult α
  | 0, retries, _, last, sleeps =>
      ⟨.error (terminalError maxR last), retries, sleeps⟩
  | fuel + 1, retries, cur, _last, sleeps =>
      match op retries with
      | .success v => ⟨.ok v, retries + 1, sleeps⟩
      | .binanceOrder msg =>
          ⟨.error ⟨.orderPlacementError, "Order failed: " ++ msg, none⟩, retries + 1, sleeps⟩
      | .binanceAPI code msg hdr =>
          if code = -1003 then
            let ra : ℚ := match hdr with
              | some r => (r : ℚ)
              | none => ((pyTrunc cur : Int) : ℚ)
            let cur2 := max cur ra
            if retries + 1 < maxR then
              runLoop op maxR backoff fuel (retries + 1) (cur2 * backoff)
                (some (.api code msg)) (sleeps ++ [cur2])
            else
              runLoop op maxR backoff fuel (retries + 1) cur2
                (some (.api code msg)) sleeps
          else if code = -1021 then
            if retries + 1 < maxR then
              runLoop op maxR backoff fuel (retries + 1) (cur * backoff)
                (some (.api code msg)) (sleeps ++ [cur])
            else
              runLoop op maxR backoff fuel (retries + 1) cur
                (some (.api code msg)) sleeps
          else if code = -2010 ∨ code = -2018 then
            ⟨.error ⟨.insufficientBalanceError, msg, some code⟩, retries + 1, sleeps⟩
          else if code = -1111 ∨ code = -1115 ∨ code = -1116 ∨ code = -1117 ∨ code = -1121 then
            ⟨.error ⟨(classifyCode code).1, msg, some code⟩, retries + 1, sleeps⟩
          else if retries = maxR - 1 then
            ⟨.error ⟨(classifyCode code).1, msg, some code⟩, retries + 1, sleeps⟩
          else
            if retries + 1 < maxR then
              runLoop op maxR backoff fuel (retries + 1) (cur * backoff)
                (some (.api code msg)) (sleeps ++ [cur])
            else
              runLoop op maxR backoff fuel (retries + 1) cur
                (some (.api code msg)) sleeps
      | .generic tbe s =>
          if retries = maxR - 1 then
            match tbe with
            | some e => ⟨.error e, retries + 1, sleeps⟩
            | none =>
                ⟨.error ⟨.connectionError,
                  "Connection failed after " ++ toString maxR ++ " retries: " ++ s, none⟩,
                  retries + 1, sleeps⟩
          else
            if retries + 1 < maxR then
              runLoop op maxR backoff fuel (retries + 1) (cur * backoff)
                (some (.gen s)) (sleeps ++ [cur])
            else
              runLoop op maxR backoff fuel (retries + 1) cur
                (some (.gen s)) sleeps

/-- The wrapper produced by `retry_api_call(max_retries, delay, backoff)`
applied to an operation: runs the retry loop from `retries = 0`,
`current_delay = delay`, `last_exception = None`. -/
def retry_api_call (op : Nat → PyOutcome α) (max_retries : Nat)
    (delay : ℚ) (backoff : ℚ) : RetryResult α :=
  runLoop op max_retries backoff max_retries 0 delay none []

/-- Python whitespace characters relevant to `str.strip()` (the inputs in
scope are ASCII). -/
def pyIsSpace (c : Char) : Bool :=
  c = ' ' || c = '\t' || c = '\n' || c = '\r'

/-- `not symbol.strip()`: true iff the string is empty after stripping
whitespace, i.e. iff every character is whitespace. -/
def pyStrippedEmpty (s : String) : Bool :=
  s.data.all pyIsSpace

/-- Python `str.upper()` on the ASCII strings in scope. -/
def pyUpper (s : String) : String :=
  ⟨s.data.map Char.toUpper⟩

/-- `validate_trading_params` from `src/utils/exceptions.py`.  Each parameter
is optional; a check runs only when its parameter is supplied (`is not None`).
Returns the first raised `InvalidOrderError`, or `none` when validation
passes.  (Quotation marks inside the source's message texts are omitted.) -/
def validate_trading_params (symbol side : Option String)
    (quantity price : Option ℚ) (order_type : Option String) : Option TBError :=
  (match symbol with
   | some s =>
       if pyStrippedEmpty s then
         some ⟨.invalidOrderError, "Symbol must be a non-empty string", none⟩
       else none
   | none => none) <|>
  (match side with
   | some sd =>
       if pyUpper sd = "BUY" ∨ pyUpper sd = "SELL" then none
       else some ⟨.invalidOrderError, "Side must be BUY or SELL", none⟩
   | none => none) <|>
  (match quantity with
   | some q =>
       if q ≤ 0 then
         some ⟨.invalidOrderError, "Quantity must be a positive number", none⟩
       else none
   | none => none) <|>
  (match price with
   | some p =>
       if p ≤ 0 then
         some ⟨.invalidOrderError, "Price must be a positive number", none⟩
       else none
   | none => none) <|>
  (match order_type with
   | some t =>
       if pyUpper t = "MARKET" ∨ pyUpper t = "LIMIT" ∨ pyUpper t = "STOP" ∨
          pyUpper t = "TAKE_PROFIT" ∨ pyUpper t = "STOP_MARKET" ∨
          pyUpper t = "TAKE_PROFIT_MARKET" then none
       else some ⟨.invalidOrderError, "Order type must be one of the valid types", none⟩
   | none => none)

/-- An exception raised by an Exchange Client call: a `BinanceAPIException`
(code, message, optional Retry-After header), a `BinanceOrderException`
(message only), or any other exception. -/
inductive ClientErr where
  | api : Int → String → Option Nat → ClientErr
  | orderErr : String → ClientErr
  | other : String → ClientErr
deriving DecidableEq

/-- Python `str(e)` for a client exception (`BinanceAPIException.__str__` is
`APIError(code=%s): %s`). -/
def pyStrErr : ClientErr → String
  | .api code msg _ => "APIError(code=" ++ toString code ++ "): " ++ msg
  | .orderErr msg => msg
  | .other msg => msg

/-- A raised client exception seen as the outcome of a wrapped operation. -/
def ClientErr.toOutcome : ClientErr → PyOutcome α
  | .api c m h => .binanceAPI c m h
  | .orderErr m => .binanceOrder m
  | .other m => .generic none m

/-- Python `str(e)` for an outcome that is an exception (unused for
`success`). -/
def pyStrExc : PyOutcome α → String
  | .success _ => ""
  | .binanceAPI code msg _ => "APIError(code=" ++ toString code ++ "): " ++ msg
  | .binanceOrder msg => msg
  | .generic _ s => s

/-- `handle_binance_error` from `src/utils/exceptions.py`: converts a raw
client exception into the custom exception it raises. -/
def handle_binance_error : ClientErr → TBError
  | .api code msg _ =>
      let p := (BINANCE_ERROR_MAP.lookup code).getD
        (.tradingBotError, "Unknown Binance API error " ++ toString code)
      ⟨p.1, msg, some code⟩
  | .orderErr msg => ⟨.orderPlacementError, "Order error: " ++ msg, none⟩
  | .other msg => ⟨.tradingBotError, "Unexpected error: " ++ msg, none⟩

/-- The keyword arguments the facade passes to
`client.futures_create_order`. -/
structure CreateOrderArgs where
  symbol : String
  side : String
  otype : String
  timeInForce : Option String
  quantity : ℚ
  price : Option ℚ
deriving DecidableEq

/-- The slice of an exchange order response the facade reads
(`order.get('orderId')`, `status`). -/
structure OrderResp where
  orderId : Option Nat
  status : String
deriving DecidableEq

/-- A structured `log_trade` entry (the trade-executed audit log). -/
structure TradeLog where
  symbol : String
  side : String
  order_type : String
  quantity : ℚ
  price : Option ℚ
  order_id : Option Nat
deriving DecidableEq

/-- One attempt of `BasicBot.place_market_order`'s body (inside the
decorator): validate, normalize casing, call `futures_create_order`, and on
success emit one `log_trade` entry and return the raw response.  Client
exceptions are logged and re-raised unchanged.  Returns the outcome, the
number of Exchange Client create-order calls made, and the trade-log
entries emitted. -/
def place_market_order_body (client : CreateOrderArgs → PyOutcome OrderResp)
    (symbol side : String) (quantity : ℚ) :
    PyOutcome OrderResp × Nat × List TradeLog :=
  match validate_trading_params (some symbol) (some side) (some quantity) none
      (some "MARKET") with
  | some err => (.generic (some err) (tbStr err), 0, [])
  | none =>
      let s := pyUpper symbol
      let sd := pyUpper side
      match client ⟨s, sd, "MARKET", none, quantity, none⟩ with
      | .success order =>
          (.success order, 1, [⟨s, sd, "MARKET", quantity, none, order.orderId⟩])
      | e => (e, 1, [])

/-- One attempt of `BasicBot.place_limit_order`'s body: same shape, with
`timeInForce='GTC'` and the price forwarded.  A `price` of `none` models the
Python caller passing `price=None`. -/
def place_limit_order_body (client : CreateOrderArgs → PyOutcome OrderResp)
    (symbol side : String) (quantity : ℚ) (price : Option ℚ) :
    PyOutcome OrderResp × Nat × List TradeLog :=
  match validate_trading_params (some symbol) (some side) (some quantity) price
      (some "LIMIT") with
  | some err => (.generic (some err) (tbStr err), 0, [])
  | none =>
      let s := pyUpper symbol
      let sd := pyUpper side
      match client ⟨s, sd, "LIMIT", some "GTC", quantity, price⟩ with
      | .success order =>
          (.success order, 1, [⟨s, sd, "LIMIT", quantity, price, order.orderId⟩])
      | e => (e, 1, [])

/-- `BasicBot.place_market_order` as deployed: the body wrapped by
`@retry_api_call(max_retries=3, delay=1)` (backoff keeps its default 2).
The client is indexed by attempt number.  Also returns the total number of
Exchange Client calls and the concatenated trade log over all attempts
actually made. -/
def place_market_order (client : Nat → CreateOrderArgs → PyOutcome OrderResp)
    (symbol side : String) (quantity : ℚ) :
    RetryResult OrderResp × Nat × List TradeLog :=
  let att := fun t => place_market_order_body (client t) symbol side quantity
  let rr := retry_api_call (fun t => (att t).1) 3 1 2
  (rr, ((List.range rr.attempts).map (fun t => (att t).2.1)).sum,
    ((List.range rr.attempts).map (fun t => (att t).2.2)).flatten)

/-- `BasicBot.place_limit_order` as deployed (decorated like the market
variant). -/
def place_limit_order (client : Nat → CreateOrderArgs → PyOutcome OrderResp)
    (symbol side : String) (quantity : ℚ) (price : Option ℚ) :
    RetryResult OrderResp × Nat × List TradeLog :=
  let att := fun t => place_limit_order_body (client t) symbol side quantity price
  let rr := retry_api_call (fun t => (att t).1) 3 1 2
  (rr, ((List.range rr.attempts).map (fun t => (att t).2.1)).sum,
    ((List.range rr.attempts).map (fun t => (att t).2.2)).flatten)

/-- Exchange cancellation response (opaque payload). -/
structure CancelResp where
  status : String
deriving DecidableEq

/-- One attempt of `BasicBot.cancel_order`'s body: Python truthiness check on
`symbol`/`order_id` (an empty symbol or order id `0` is falsy), symbol
validation, then the client call; ANY exception from the client call is
caught and re-raised as `OrderCancellationError` wrapping `str(e)`.  Returns
the outcome and the number of client cancel calls. -/
def cancel_order_body (clientResult : PyOutcome CancelResp)
    (symbol : String) (order_id : Nat) : PyOutcome CancelResp × Nat :=
  if symbol = "" ∨ order_id = 0 then
    (.generic (some ⟨.invalidOrderError, "Symbol and order_id are required", none⟩)
      "Symbol and order_id are required", 0)
  else
    match validate_trading_params (some symbol) none none none none with
    | some err => (.generic (some err) (tbStr err), 0)
    | none =>
        match clientResult with
        | .success r => (.success r, 1)
        | e =>
            let m := "Failed to cancel order " ++ toString order_id ++ ": " ++ pyStrExc e
            (.generic (some ⟨.orderCancellationError, m, none⟩) m, 1)

/-- `BasicBot.cancel_order` as deployed: the body wrapped by
`@retry_api_call(max_retries=3, delay=1)`. -/
def cancel_order (client : Nat → PyOutcome CancelResp)
    (symbol : String) (order_id : Nat) : RetryResult CancelResp × Nat :=
  let att := fun t => cancel_order_body (client t) symbol order_id
  let rr := retry_api_call (fun t => (att t).1) 3 1 2
  (rr, ((List.range rr.attempts).map (fun t => (att t).2)).sum)

/-- `BasicBot.get_current_price` as written in the source: it validates and
calls `client.futures_symbol_ticker` directly — this method carries NO
`@retry_api_call` decorator, so a client exception propagates raw after a
single call.  Returns the outcome and the number of client calls. -/
def get_current_price (client : Nat → PyOutcome ℚ) (symbol : String) :
    PyOutcome ℚ × Nat :=
  match validate_trading_params (some symbol) none none none none with
  | some err => (.generic (some err) (tbStr err), 0)
  | none =>
      match client 0 with
      | .success p => (.success p, 1)
      | e => (e, 1)

/-- `BasicBot.get_account_balance` as deployed: the body (which re-raises
client errors unchanged) wrapped by `@retry_api_call(max_retries=3, delay=1)`. -/
def get_account_balance (client : Nat → PyOutcome (List ℚ)) :
    RetryResult (List ℚ) :=
  retry_api_call (fun t => client t) 3 1 2

/-! Concrete collaborators and scenario operations used by the theorems. -/

/-- Codes the spec's classification table files under connectivity/auth
failures (internal error, unauthorized, timeout, timestamp skew, bad
signature, bad listen key, bad API key). -/
def connectivityCodes : List Int :=
  [-1001, -1002, -1007, -1021, -1022, -1125, -2014, -2015]

/-- Codes the spec files under rate limiting (too many requests, server
overloaded, too many orders). -/
def rateLimitCodes : List Int := [-1003, -1008, -1015]

/-- Codes the spec files under malformed/invalid request parameters
(the -11xx parameter family, including bad precision -1111 and bad
symbol -1121). -/
def invalidParamCodes : List Int :=
  [-1100, -1101, -1102, -1103, -1104, -1105, -1106, -1111, -1114, -1115,
   -1116, -1117, -1118, -1119, -1120, -1121, -1127, -1128, -1130, -1131]

/-- Codes the spec files under insufficient funds/margin. -/
def insufficientCodes : List Int := [-2010, -2018, -2019]

/-- Codes the spec files under order-specific failures (unknown order,
order does not exist, would immediately trigger). -/
def orderSpecificCodes : List Int := [-2011, -2013, -2021]

/-- The codes `retry_api_call` raises without retrying: its insufficient
balance list `[-2010, -2018]` and its parameter-error list
`[-1111, -1115, -1116, -1117, -1121]`. -/
def noRetryCodes : List Int :=
  [-2010, -2018, -1111, -1115, -1116, -1117, -1121]

/-- An operation that always raises `BinanceAPIException` code `-2019`
(margin insufficient, classified `InsufficientBalanceError`). -/
def opMargin2019 : Nat → PyOutcome Unit :=
  fun _ => .binanceAPI (-2019) "Margin is insufficient" none

/-- An operation raising two generic transient exceptions, then succeeding. -/
def opFailsTwice (s0 s1 : String) (v : α) : Nat → PyOutcome α :=
  fun t => if t = 0 then .generic none s0
    else if t = 1 then .generic none s1 else .success v

/-- An operation that always raises code `-2010` (insufficient balance). -/
def opBal2010 : Nat → PyOutcome Unit :=
  fun _ => .binanceAPI (-2010) "Account has insufficient balance" none

/-- A create-order client that always succeeds. -/
def clientAlwaysOk : Nat → CreateOrderArgs → PyOutcome OrderResp :=
  fun _ _ => .success ⟨some 55, "NEW"⟩

/-- A create-order client that returns `{orderId: 123, status: "FILLED"}`
when and only when called with the normalized arguments of a
`BTCUSDT BUY MARKET` order, and raises code `-1102` otherwise — so a
successful result witnesses that the facade normalized its inputs. -/
def clientNormalized : Nat → CreateOrderArgs → PyOutcome OrderResp :=
  fun _ args =>
    if args.symbol = "BTCUSDT" ∧ args.side = "BUY" ∧ args.otype = "MARKET"
    then .success ⟨some 123, "FILLED"⟩
    else .binanceAPI (-1102) "Mandatory parameter was not sent" none

/-- An outcome on which `retry_api_call` continues the loop when budget
remains (any generic exception; any API error outside the two no-retry
lists).  Success and `BinanceOrderException` terminate the loop instead. -/
def retryableOutcome : PyOutcome α → Bool
  | .binanceAPI code _ _ => decide (code ∉ noRetryCodes)
  | .generic _ _ => true
  | _ => false

/-- An operation that always raises the rate-limit code `-1003` with a
`Retry-After: 7` header. -/
def op1003 : Nat → PyOutcome Unit :=
  fun _ => .binanceAPI (-1003) "Too many requests" (some 7)

/-- An operation raising a transient timeout on its first call and a
`BinanceOrderException` on every later call. -/
def opTransientThenOrder : Nat → PyOutcome Unit :=
  fun t => if t = 0 then .binanceAPI (-1007) "Request timeout" none
    else .binanceOrder "bad quantity"

/-- A ticker client failing with a transient timeout on its first call and
succeeding afterwards. -/
def flakyPriceClient : Nat → PyOutcome ℚ :=
  fun t => if t = 0 then .binanceAPI (-1007) "Request timeout" none
    else .success 100

/-- A balance client failing with a transient timeout on its first call and
succeeding afterwards. -/
def flakyBalanceClient : Nat → PyOutcome (List ℚ) :=
  fun t => if t = 0 then .binanceAPI (-1007) "Request timeout" none
    else .success [42]

/-- C3: for every code in the classification table's families,
classification returns exactly the documented kind: connectivity/auth codes
map to ConnectionFailure, rate-limiting codes to RateLimited,
malformed-parameter codes (bad symbol, bad side, bad precision, missing
mandatory field) to InvalidRequest, insufficient funds/margin codes to
InsufficientBalance, and order-specific failure codes to OrderRejected. -/
theorem C3_classification_table :
    (∀ c ∈ connectivityCodes, toSpecKind (classifyCode c).1 = .connectionFailure) ∧
    (∀ c ∈ rateLimitCodes, toSpecKind (classifyCode c).1 = .rateLimited) ∧
    (∀ c ∈ invalidParamCodes, toSpecKind (classifyCode c).1 = .invalidRequest) ∧
    (∀ c ∈ insufficientCodes, toSpecKind (classifyCode c).1 = .insufficientBalance) ∧
    (∀ c ∈ orderSpecificCodes, toSpecKind (classifyCode c).1 = .orderRejected) := by
  decide

/-- Witness for C3: the bad-symbol code `-1121` classifies to
`InvalidRequest`. -/
theorem C3_classification_table_witness :
    toSpecKind (classifyCode (-1121)).1 = SpecKind.invalidRequest :=
  C3_classification_table.2.2.1 (-1121) (by decide)

/-- C6: for every initial delay and backoff multiplier, an operation that
raises a retryable transient error on its first two calls and succeeds on
the third returns the third call's value, makes exactly 3 attempts, and
sleeps exactly twice, with delays `d` then `d * b`, in that order
(the facade's deployed budget `max_retries = 3`). -/
theorem C6_fail_twice_then_succeed (d b : ℚ) (s0 s1 : String) (v : α) :
    retry_api_call (opFailsTwice s0 s1 v) 3 d b = ⟨.ok v, 3, [d, d * b]⟩ :=
  rfl

/-- Counterexample to C1 as stated: code `-2019` classifies to the
`InsufficientBalance` kind, yet `execute` with an operation always raising
it makes 3 attempts with 2 backoff sleeps instead of failing after exactly
one attempt — only the codes in `noRetryCodes` short-circuit. -/
theorem C1_counterexample :
    toSpecKind (classifyCode (-2019)).1 = SpecKind.insufficientBalance ∧
    (retry_api_call opMargin2019 3 1 2).attempts = 3 ∧
    (retry_api_call opMargin2019 3 1 2).sleeps = [1, 1 * 2] ∧
    (retry_api_call opMargin2019 3 1 2).result =
      .error ⟨.insufficientBalanceError, "Margin is insufficient", some (-2019)⟩ :=
  ⟨rfl, rfl, rfl, rfl⟩

/-- C1 amended: immediate single-attempt failure with the classified kind
holds exactly for the codes in the decorator's no-retry lists
(`-2010, -2018` for insufficient balance; `-1111, -1115, -1116, -1117,
-1121` for parameter errors); other codes of those kinds are retried. -/
theorem C1_amended_no_retry_codes (op : Nat → PyOutcome α) (m : Nat) (d b : ℚ)
    (code : Int) (msg : String) (hdr : Option Nat)
    (hm : 1 ≤ m) (hc : code ∈ noRetryCodes)
    (h0 : op 0 = .binanceAPI code msg hdr) :
    (retry_api_call op m d b).result =
      .error ⟨(classifyCode code).1, msg, some code⟩ ∧
    (toSpecKind (classifyCode code).1 = .insufficientBalance ∨
     toSpecKind (classifyCode code).1 = .invalidRequest) ∧
    (retry_api_call op m d b).attempts = 1 ∧
    (retry_api_call op m d b).sleeps = [] := by
  obtain ⟨m1, rfl⟩ : ∃ m1, m = m1 + 1 := ⟨m - 1, by omega⟩
  simp only [noRetryCodes, List.mem_cons, List.not_mem_nil, or_false] at hc
  rcases hc with rfl | rfl | rfl | rfl | rfl | rfl | rfl <;>
    refine ⟨?_, by decide, ?_, ?_⟩ <;>
    simp [retry_api_call, runLoop, h0] <;> rfl

/-- Witness for C1 amended: code `-2010` on the first call fails after one
attempt, with no sleeps, as `InsufficientBalanceError`. -/
theorem C1_amended_no_retry_codes_witness :
    (retry_api_call opBal2010 3 1 2).result =
      .error ⟨(classifyCode (-2010)).1, "Account has insufficient balance",
        some (-2010)⟩ ∧
    (toSpecKind (classifyCode (-2010)).1 = .insufficientBalance ∨
     toSpecKind (classifyCode (-2010)).1 = .invalidRequest) ∧
    (retry_api_call opBal2010 3 1 2).attempts = 1 ∧
    (retry_api_call opBal2010 3 1 2).sleeps = [] :=
  C1_amended_no_retry_codes opBal2010 3 1 2 (-2010)
    "Account has insufficient balance" none (by decide) (by decide) rfl

/-- C8: an error code absent from the classification table is translated to
the generic base class, and the resulting error preserves the raw numeric
code both in its `error_code` field and in its string representation. -/
theorem C8_unknown_code_generic (code : Int) (msg : String) (hdr : Option Nat)
    (h : BINANCE_ERROR_MAP.lookup code = none) :
    handle_binance_error (.api code msg hdr) =
      ⟨.tradingBotError, msg, some code⟩ ∧
    tbStr (handle_binance_error (.api code msg hdr)) =
      "[" ++ toString code ++ "] " ++ msg := by
  simp [handle_binance_error, h, tbStr]

/-- Witness for C8 at the spec's example code `-9999`. -/
theorem C8_unknown_code_generic_witness :
    handle_binance_error (.api (-9999) "boom" none) =
      ⟨.tradingBotError, "boom", some (-9999)⟩ ∧
    tbStr (handle_binance_error (.api (-9999) "boom" none)) = "[-9999] boom" :=
  C8_unknown_code_generic (-9999) "boom" none rfl

/-- C2 (code-bug evaluation): calling the deployed `place_limit_order` with
`price=None` does NOT fail validation — `validate_trading_params` skips the
price check when the price is absent — and the Exchange Client create-order
operation is invoked once (the claim requires an InvalidRequest failure with
zero client calls). -/
theorem C2_limit_order_price_none_reaches_network :
    validate_trading_params (some "BTCUSDT") (some "BUY") (some (mkRat 1 100)) none
      (some "LIMIT") = none ∧
    (place_limit_order clientAlwaysOk "BTCUSDT" "BUY" (mkRat 1 100) none).2.1 = 1 ∧
    (place_limit_order clientAlwaysOk "BTCUSDT" "BUY" (mkRat 1 100) none).1.result =
      .ok ⟨some 55, "NEW"⟩ :=
  ⟨rfl, rfl, rfl⟩

/-- C4 (code-bug evaluation): with a client that fails transiently on its
first call and succeeds afterwards, the undecorated `get_current_price`
propagates the raw error after exactly one client call, while the decorated
`get_account_balance` retries and succeeds on its second attempt. -/
theorem C4_get_current_price_not_wrapped :
    get_current_price flakyPriceClient "BTCUSDT" =
      (.binanceAPI (-1007) "Request timeout" none, 1) ∧
    (get_account_balance flakyBalanceClient).result = .ok [42] ∧
    (get_account_balance flakyBalanceClient).attempts = 2 :=
  ⟨rfl, rfl, rfl⟩

/-- C9: `place_market_order("btcusdt", "buy", 0.001)` normalizes to
`BTCUSDT`/`BUY` (the client only succeeds on normalized arguments), calls
create-order exactly once, returns the success response
`{orderId: 123, status: "FILLED"}` unchanged, and emits exactly one
trade-executed log entry referencing order id 123. -/
theorem C9_market_order_end_to_end :
    place_market_order clientNormalized "btcusdt" "buy" (mkRat 1 1000) =
      (⟨.ok ⟨some 123, "FILLED"⟩, 1, []⟩, 1,
        [⟨"BTCUSDT", "BUY", "MARKET", mkRat 1 1000, none, some 123⟩]) :=
  rfl

/-- C10: whatever exception the underlying cancel call raises, the caller of
the deployed `cancel_order` observes an `OrderCancellationError` wrapping the
original exception's string — never the original classified kind. -/
theorem C10_cancel_wraps_client_errors (err : ClientErr) :
    (cancel_order (fun _ => err.toOutcome) "BTCUSDT" 12345).1.result =
      .error ⟨.orderCancellationError,
        "Failed to cancel order 12345: " ++ pyStrErr err, none⟩ := by
  cases err <;> rfl

/-- Helper: while the loop's `last_exception` records a `-1003` API error
and the operation keeps raising `-1003`, running the loop with any remaining
fuel ends in the terminal `RateLimitError` raise, after one more attempt per
unit of fuel. -/
theorem runLoop_1003_aux (op : Nat → PyOutcome α) (m : Nat) (b : ℚ) (msg : String)
    (hdr : Nat → Option Nat)
    (hop : ∀ t, op t = .binanceAPI (-1003) msg (hdr t)) :
    ∀ fuel retries cur sleeps,
      (runLoop op m b fuel retries cur (some (.api (-1003) msg)) sleeps).result =
        .error ⟨.rateLimitError, "Max retries exceeded: " ++ msg, some (-1003)⟩ ∧
      (runLoop op m b fuel retries cur (some (.api (-1003) msg)) sleeps).attempts =
        retries + fuel := by
  intro fuel
  induction fuel with
  | zero => intro r cur sleeps; exact ⟨rfl, rfl⟩
  | succ f ih =>
      intro r cur sleeps
      have h := hop r
      simp only [runLoop, h]
      by_cases hlt : r + 1 < m
      · simp only [if_pos hlt, if_true]
        exact ⟨(ih _ _ _).1, by rw [(ih _ _ _).2]; omega⟩
      · simp only [if_neg hlt, if_true]
        exact ⟨(ih _ _ _).1, by rw [(ih _ _ _).2]; omega⟩

/-- C5: for every retry budget of at least one, `execute` with an operation
that on every call raises a `RateLimited`-classified error (code `-1003`)
makes exactly `maxRetries` attempts and then raises a terminal error of the
`RateLimited` kind. -/
theorem C5_rate_limited_exhausts_budget (op : Nat → PyOutcome α) (m : Nat)
    (d b : ℚ) (msg : String) (hdr : Nat → Option Nat) (hm : 1 ≤ m)
    (hop : ∀ t, op t = .binanceAPI (-1003) msg (hdr t)) :
    (retry_api_call op m d b).result =
      .error ⟨.rateLimitError, "Max retries exceeded: " ++ msg, some (-1003)⟩ ∧
    (retry_api_call op m d b).attempts = m := by
  obtain ⟨m1, rfl⟩ : ∃ m1, m = m1 + 1 := ⟨m - 1, by omega⟩
  have h := hop 0
  simp only [retry_api_call, runLoop, h]
  by_cases hlt : 0 + 1 < m1 + 1
  · simp only [if_pos hlt, if_true]
    exact ⟨(runLoop_1003_aux op _ b msg hdr hop _ _ _ _).1,
      by rw [(runLoop_1003_aux op _ b msg hdr hop _ _ _ _).2]; omega⟩
  · simp only [if_neg hlt, if_true]
    exact ⟨(runLoop_1003_aux op _ b msg hdr hop _ _ _ _).1,
      by rw [(runLoop_1003_aux op _ b msg hdr hop _ _ _ _).2]; omega⟩

/-- Witness for C5 with budget 3 and a constant `-1003` operation. -/
theorem C5_rate_limited_exhausts_budget_witness :
    (retry_api_call op1003 3 1 2).result =
      .error ⟨.rateLimitError, "Max retries exceeded: Too many requests",
        some (-1003)⟩ ∧
    (retry_api_call op1003 3 1 2).attempts = 3 :=
  C5_rate_limited_exhausts_budget op1003 3 1 2 "Too many requests"
    (fun _ => some 7) (by decide) (fun _ => rfl)

/-- Helper: if the first `k` attempts produce retryable outcomes and attempt
`k` (still within the remaining fuel) raises a `BinanceOrderException`, the
loop stops at attempt `k` with an immediate `OrderPlacementError`. -/
theorem runLoop_order_aux (op : Nat → PyOutcome α) (m : Nat) (b : ℚ)
    (msg : String) :
    ∀ k fuel r, r + fuel = m → k < fuel →
      (∀ j, j < k → retryableOutcome (op (r + j)) = true) →
      op (r + k) = .binanceOrder msg →
      ∀ cur last sleeps,
      (runLoop op m b fuel r cur last sleeps).result =
        .error ⟨.orderPlacementError, "Order failed: " ++ msg, none⟩ ∧
      (runLoop op m b fuel r cur last sleeps).attempts = r + k + 1 := by
  intro k
  induction k with
  | zero =>
      intro fuel r hrm hk hpre hord cur last sleeps
      obtain ⟨f, rfl⟩ : ∃ f, fuel = f + 1 := ⟨fuel - 1, by omega⟩
      rw [Nat.add_zero] at hord
      simp only [runLoop, hord]
      refine ⟨?_, ?_⟩ <;> first | rfl | trivial
  | succ k ih =>
      intro fuel r hrm hk hpre hord cur last sleeps
      obtain ⟨f, rfl⟩ : ∃ f, fuel = f + 1 := ⟨fuel - 1, by omega⟩
      have h0 : retryableOutcome (op r) = true := by
        have := hpre 0 (by omega)
        simpa using this
      have hpre2 : ∀ j, j < k → retryableOutcome (op (r + 1 + j)) = true := by
        intro j hj
        have := hpre (j + 1) (by omega)
        rwa [show r + (j + 1) = r + 1 + j by omega] at this
      have hord2 : op (r + 1 + k) = .binanceOrder msg := by
        rwa [show r + (k + 1) = r + 1 + k by omega] at hord
      have hne : ¬ (r = m - 1) := by omega
      cases hopr : op r with
      | success v => rw [hopr] at h0; simp [retryableOutcome] at h0
      | binanceOrder m2 => rw [hopr] at h0; simp [retryableOutcome] at h0
      | generic tbe s =>
          simp only [runLoop, hopr, if_neg hne]
          by_cases hlt : r + 1 < m
          · simp only [if_pos hlt]
            exact ⟨(ih f (r + 1) (by omega) (by omega) hpre2 hord2 _ _ _).1,
              by rw [(ih f (r + 1) (by omega) (by omega) hpre2 hord2 _ _ _).2]; omega⟩
          · simp only [if_neg hlt]
            exact ⟨(ih f (r + 1) (by omega) (by omega) hpre2 hord2 _ _ _).1,
              by rw [(ih f (r + 1) (by omega) (by omega) hpre2 hord2 _ _ _).2]; omega⟩
      | binanceAPI code m2 hd =>
          rw [hopr] at h0
          have hmem : code ∉ noRetryCodes := by simpa [retryableOutcome] using h0
          have hne1 : ¬ (code = -2010 ∨ code = -2018) := by
            simp [noRetryCodes] at hmem
            tauto
          have hne2 : ¬ (code = -1111 ∨ code = -1115 ∨ code = -1116 ∨
              code = -1117 ∨ code = -1121) := by
            simp [noRetryCodes] at hmem
            tauto
          simp only [runLoop, hopr]
          split_ifs <;>
            first
            | (exfalso; tauto)
            | (exfalso; omega)
            | exact ⟨(ih f (r + 1) (by omega) (by omega) hpre2 hord2 _ _ _).1,
                by rw [(ih f (r + 1) (by omega) (by omega) hpre2 hord2 _ _ _).2]; omega⟩

/-- C7: if some attempt of a wrapped operation raises a
`BinanceOrderException` (order-placement-specific, message only) after only
retryable outcomes, `execute` raises `OrderPlacementError` immediately on
that attempt, with no further retries, regardless of remaining budget. -/
theorem C7_order_error_never_retried (op : Nat → PyOutcome α) (m : Nat)
    (d b : ℚ) (k : Nat) (msg : String) (hk : k < m)
    (hpre : ∀ j, j < k → retryableOutcome (op j) = true)
    (hord : op k = .binanceOrder msg) :
    (retry_api_call op m d b).result =
      .error ⟨.orderPlacementError, "Order failed: " ++ msg, none⟩ ∧
    (retry_api_call op m d b).attempts = k + 1 := by
  have h := runLoop_order_aux op m b msg k m 0 (by omega) hk
    (by simpa using hpre) (by simpa using hord) d none []
  simpa [retry_api_call] using h

/-- Witness for C7: a transient failure then a `BinanceOrderException` on
attempt 1 stops after 2 of 5 budgeted attempts with `OrderPlacementError`. -/
theorem C7_order_error_never_retried_witness :
    (retry_api_call opTransientThenOrder 5 1 2).result =
      .error ⟨.orderPlacementError, "Order failed: bad quantity", none⟩ ∧
    (retry_api_call opTransientThenOrder 5 1 2).attempts = 1 + 1 :=
  C7_order_error_never_retried opTransientThenOrder 5 1 2 1 "bad quantity"
    (by decide) (by decide) rfl

end TradingBot
